import Mathlib

/-!
A shallow embedding of the Email-generator core pipeline
(validate → infer controls → build prompt → call model → extract JSON →
validate output), translated from `app/core/validator.py`,
`app/utils/json_guard.py`, `app/core/control.py`, `app/core/prompt.py`,
`app/core/output_validator.py` and `app/core/service.py`.

Strings are modelled as Lean `String`/`List Char`; Python exceptions as
`Except`/`Option` results; the external LLM and the ML intent classifier
as explicit oracle functions passed to the stage that calls them.
`json.loads` is modelled by a small recursive-descent JSON parser over the
grammar fragment the pipeline exercises (objects, arrays, strings without
escape sequences, unsigned integer numerals, `true`/`false`/`null`, with
inter-token whitespace).
-/

namespace EmailGen

/-- Whitespace as Python's `str.strip` removes it (the ASCII whitespace
characters). -/
def isPyWs (c : Char) : Bool :=
  c == ' ' || c == '\t' || c == '\n' || c == '\r' || c == '\x0b' || c == '\x0c'

/-- Python `s.strip()`: drop leading and trailing whitespace. -/
def pyStrip (s : List Char) : List Char :=
  ((s.dropWhile isPyWs).reverse.dropWhile isPyWs).reverse

/-- Modelled from the spec: the class `ServiceError` lives in
`app/core/errors.py`, which is not among the staged source files; the spec
describes it as "a tagged error with a machine-readable code and human
message". All raise sites (and their code/message strings) are in the staged
sources. -/
structure ServiceError where
  code : String
  message : String
deriving DecidableEq, Repr

/-- `app/core/validator.py`, `validate_description`: raises
`ServiceError(INVALID_INPUT)` when the description is falsy or its stripped
length is below 10, or when its raw length exceeds 500. -/
def validate_description (desc : String) : Except ServiceError Unit :=
  if desc.data = [] ∨ (pyStrip desc.data).length < 10 then
    .error ⟨"INVALID_INPUT", "Description too short"⟩
  else if desc.data.length > 500 then
    .error ⟨"INVALID_INPUT", "Description too long"⟩
  else
    .ok ()

/-- The prefix of `l` that ends at the last `'}'` of `l` (empty when `l`
has no `'}'`). This is how far the greedy `.*` of the pattern
`\x7b.*\x7d` (compiled with DOTALL in `app/utils/json_guard.py`) reaches. -/
def takeToLastRBrace (l : List Char) : List Char :=
  (l.reverse.dropWhile (fun c => c != '}')).reverse

/-- `re.search` of the pattern `\x7b.*\x7d` (DOTALL): the match starts at the
leftmost `'{'` that still has a `'}'` after it and, greedily, ends at the
last `'}'` of the text. -/
def jsonBlockSearch : List Char → Option (List Char)
  | [] => none
  | c :: cs =>
    if c = '{' ∧ '}' ∈ cs then some (c :: takeToLastRBrace cs)
    else jsonBlockSearch cs

/-- JSON values, as far as the pipeline's replies exercise them: numbers are
restricted to unsigned integer numerals and strings carry no escape
sequences. -/
inductive Json where
  | null : Json
  | bool (b : Bool) : Json
  | num (n : Nat) : Json
  | str (s : String) : Json
  | arr (elems : List Json) : Json
  | obj (fields : List (String × Json)) : Json

/-- Whitespace JSON allows between tokens. -/
def skipJsonWs (cs : List Char) : List Char :=
  cs.dropWhile (fun c => c == ' ' || c == '\t' || c == '\n' || c == '\r')

/-- A JSON string body after its opening quote: everything up to the next
quote (escape sequences are outside the modelled fragment). -/
def parseStringLit (cs : List Char) : Option (String × List Char) :=
  match cs.dropWhile (fun c => c != '"') with
  | _ :: rest => some (String.mk (cs.takeWhile (fun c => c != '"')), rest)
  | [] => none

/-- An unsigned decimal numeral. -/
def parseNatLit (cs : List Char) : Option (Nat × List Char) :=
  let digits := cs.takeWhile (fun c => c.isDigit)
  if digits.isEmpty then none
  else
    some (digits.foldl (fun acc c => acc * 10 + (c.toNat - '0'.toNat)) 0,
          cs.dropWhile (fun c => c.isDigit))

mutual

/-- Recursive-descent JSON value parser (fuel bounds the nesting depth). -/
def parseValue : Nat → List Char → Option (Json × List Char)
  | 0, _ => none
  | Nat.succ fuel, cs =>
    match skipJsonWs cs with
    | '{' :: r =>
      (match skipJsonWs r with
       | '}' :: r2 => some (.obj [], r2)
       | _ =>
         match parseMembers fuel r with
         | some (kvs, r2) => some (.obj kvs, r2)
         | none => none)
    | '[' :: r =>
      (match skipJsonWs r with
       | ']' :: r2 => some (.arr [], r2)
       | _ =>
         match parseElements fuel r with
         | some (vs, r2) => some (.arr vs, r2)
         | none => none)
    | '"' :: r =>
      (match parseStringLit r with
       | some (s, r2) => some (.str s, r2)
       | none => none)
    | 't' :: 'r' :: 'u' :: 'e' :: r => some (.bool true, r)
    | 'f' :: 'a' :: 'l' :: 's' :: 'e' :: r => some (.bool false, r)
    | 'n' :: 'u' :: 'l' :: 'l' :: r => some (.null, r)
    | other =>
      match parseNatLit other with
      | some (n, r2) => some (.num n, r2)
      | none => none

/-- The members of a JSON object after its opening brace (at least one). -/
def parseMembers : Nat → List Char → Option (List (String × Json) × List Char)
  | 0, _ => none
  | Nat.succ fuel, cs =>
    match skipJsonWs cs with
    | '"' :: r =>
      (match parseStringLit r with
       | some (k, r1) =>
         (match skipJsonWs r1 with
          | ':' :: r2 =>
            (match parseValue fuel r2 with
             | some (v, r3) =>
               (match skipJsonWs r3 with
                | ',' :: r4 =>
                  (match parseMembers fuel r4 with
                   | some (kvs, r5) => some ((k, v) :: kvs, r5)
                   | none => none)
                | '}' :: r4 => some ([(k, v)], r4)
                | _ => none)
             | none => none)
          | _ => none)
       | none => none)
    | _ => none

/-- The elements of a JSON array after its opening bracket (at least one). -/
def parseElements : Nat → List Char → Option (List Json × List Char)
  | 0, _ => none
  | Nat.succ fuel, cs =>
    match parseValue fuel cs with
    | some (v, r) =>
      (match skipJsonWs r with
       | ',' :: r2 =>
         (match parseElements fuel r2 with
          | some (vs, r3) => some (v :: vs, r3)
          | none => none)
       | ']' :: r2 => some ([v], r2)
       | _ => none)
    | none => none

end

/-- `json.loads` on the matched region: a single JSON value with nothing but
whitespace after it. The fuel `cs.length + 1` dominates any nesting depth. -/
def parseJson (cs : List Char) : Option Json :=
  match parseValue (cs.length + 1) cs with
  | some (v, rest) => if skipJsonWs rest = [] then some v else none
  | none => none

/-- `app/utils/json_guard.py`, `safe_parse_json`: empty/whitespace-only reply
→ `LLM_EMPTY_RESPONSE`; no match of `\x7b.*\x7d` → `LLM_INVALID_OUTPUT`;
match does not parse, or parses to a non-object → `LLM_INVALID_JSON`;
otherwise the parsed object's key-value pairs (Python's dict keeps the last
binding of a repeated key; the association list keeps all bindings and
`dictGet` reads the last one, matching dict access). The decode-error message
carries Python's exception text, elided here. -/
def safe_parse_json (text : String) : Except ServiceError (List (String × Json)) :=
  if text.data.all isPyWs then
    .error ⟨"LLM_EMPTY_RESPONSE", "LLM returned empty response"⟩
  else
    match jsonBlockSearch text.data with
    | none => .error ⟨"LLM_INVALID_OUTPUT", "No JSON object found in LLM response"⟩
    | some region =>
      match parseJson region with
      | none => .error ⟨"LLM_INVALID_JSON", "Invalid JSON returned by LLM"⟩
      | some (.obj kvs) => .ok kvs
      | some _ => .error ⟨"LLM_INVALID_JSON", "Parsed JSON is not an object"⟩

/-- `app/core/control.py`: the derived writing configuration. The Python
code builds it as a dict with exactly these three keys; it carries no
confidence field. -/
structure Controls where
  tone : String
  length : String
  recipient : String
deriving DecidableEq, Repr

/-- The "default safe controls (Phase 0 behaviour)" of `infer_controls`. -/
def defaultControls : Controls :=
  { tone := "professional", length := "medium", recipient := "Recipient" }

/-- `INTENT_CONFIDENCE_THRESHOLD = 0.6` in `app/core/control.py`. -/
def INTENT_CONFIDENCE_THRESHOLD : ℚ := 6 / 10

/-- What one call of `app/ml/intent_predictor.py`'s `predict_intent` does:
returns an (intent, confidence) pair, or raises (model files missing,
unpickling failure, …). The classifier is external to the staged core, so it
enters as an oracle value. Confidence, a Python float in [0,1], is modelled
as a rational. -/
inductive ClassifierOutcome where
  | ok (intent : String) (confidence : ℚ) : ClassifierOutcome
  | failed : ClassifierOutcome
deriving DecidableEq, Repr

/-- The fixed intent → recipient lookup of `infer_controls` (the if/elif
chain on the predicted intent, with `"Recipient"` as the final else). -/
def intentRecipient (intent : String) : String :=
  if intent = "HR_EMAIL" then "HR"
  else if intent = "MANAGER_EMAIL" then "Manager"
  else if intent = "CLIENT_EMAIL" then "Client"
  else if intent = "COLLEGE_EMAIL" then "College"
  else "Recipient"

/-- `app/core/control.py`, `infer_controls`: start from the default
controls; if `predict_intent` succeeds with confidence at or above the
threshold, set the recipient through the lookup table; on low confidence do
nothing; on any classifier exception fall back silently. -/
def infer_controls (classify : String → ClassifierOutcome) (description : String) :
    Controls :=
  match classify description with
  | .ok intent confidence =>
    if INTENT_CONFIDENCE_THRESHOLD ≤ confidence then
      { defaultControls with recipient := intentRecipient intent }
    else
      defaultControls
  | .failed => defaultControls

/-- The `user_details` dict consumed by `build_prompt` (all reads go through
`.get`, so every field is optional; Python truthiness makes `None` and `""`
equivalent to absent). -/
structure UserDetails where
  name : Option String := none
  role : Option String := none
  university : Option String := none
  company : Option String := none
  title : Option String := none
  email : Option String := none
deriving DecidableEq, Repr

/-- Python truthiness of an optional string field. -/
def truthy (o : Option String) : Bool :=
  match o with
  | some s => s != ""
  | none => false

/-- The `sig_block` local of `app/core/prompt.py`'s `build_prompt`: the name
(defaulting to `""`), then a role-conditioned affiliation line, then the
email address when truthy. -/
def sigBlock (d : UserDetails) : String :=
  let role := d.role.getD "professional"
  let base := d.name.getD ""
  let withRole :=
    if role = "student" ∧ truthy d.university then
      base ++ "\nStudent, " ++ d.university.getD ""
    else if role = "professional" ∧ truthy d.company then
      base ++ "\n" ++ (if truthy d.title then d.title.getD "" else "Employee")
        ++ ", " ++ d.company.getD ""
    else if role = "business" ∧ truthy d.company then
      base ++ "\nOwner, " ++ d.company.getD ""
    else base
  if truthy d.email then withRole ++ "\n" ++ d.email.getD "" else withRole

/-- The `system_role` local of `build_prompt`. -/
def systemRole (role : String) : String :=
  if role = "student" then "polite university student"
  else if role = "business" then "experienced business owner"
  else "expert professional email writer"

/-- The `signature_instruction` f-string of `build_prompt`, with the
signature block interpolated. -/
def signatureInstruction (sb : String) : String :=
  "\n    MANDATORY SIGNATURE RULE:\n    The 'closing' field must end with a professional sign-off (like 'Best regards,'), followed by a newline, and then this EXACT signature block:\n    "
    ++ sb ++ "\n    "

/-- The fixed OUTPUT FORMAT RULES block of the final prompt f-string
(between the recipient line and the signature instruction), including the
stated subject limit "Max 100 chars". -/
def promptRules : String :=
  ".\n\nOUTPUT FORMAT RULES:\n1. Return ONLY a raw JSON object. \n2. Do not include markdown formatting (no ```json ... ```).\n3. Keys must be: \"subject\", \"greeting\", \"body\", \"closing\".\n4. \"subject\": Max 100 chars. No placeholders.\n5. \"greeting\": Professional greeting.\n6. \"body\": Clear, concise, NO placeholders.\n7. \"closing\": Professional sign-off followed by the signature.\n"

/-- `app/core/prompt.py`, `build_prompt`: the full prompt text, assembled
exactly as the final f-string interpolates `system_role`, `tone`, `length`,
`recipient`, `signature_instruction` and `description`. -/
def build_prompt (controls : Controls) (description : String)
    (user_details : UserDetails) : String :=
  let role := user_details.role.getD "professional"
  "\nYou are a " ++ systemRole role ++ ". \nYour task is to write a "
    ++ controls.tone ++ ", " ++ controls.length ++ "-length email to "
    ++ controls.recipient ++ promptRules
    ++ signatureInstruction (sigBlock user_details)
    ++ "\n\nUSER REQUEST:\n" ++ description ++ "\n"

/-- Python `dict` access on the parsed JSON object: `json.loads` keeps the
last binding of a repeated key, so lookup reads the association list from
the right. -/
def dictGet (kvs : List (String × Json)) (k : String) : Option Json :=
  kvs.reverse.lookup k

/-- The string value of a field (the output validator has already checked it
is a string when this is read for the length checks). -/
def dictGetStr (kvs : List (String × Json)) (k : String) : String :=
  match dictGet kvs k with
  | some (.str s) => s
  | _ => ""

/-- One iteration of the per-field loop in
`app/core/output_validator.py`'s `validate_email_output`: `some msg` is a
raised `ValueError(msg)`. A detected `[...]` placeholder is only logged
("Passed to user for manual edit"), never an error. -/
def checkField (kvs : List (String × Json)) (field : String) : Option String :=
  match dictGet kvs field with
  | none => some ("Missing field: " ++ field)
  | some (.str s) => if pyStrip s.data = [] then some ("Empty field: " ++ field) else none
  | some _ => some ("Empty field: " ++ field)

/-- `app/core/output_validator.py`, `validate_email_output`: the four
required fields in order, then the subject/body length checks; `some msg`
models `raise ValueError(msg)`, `none` models passing. -/
def validate_email_output (data : List (String × Json)) : Option String :=
  match checkField data "subject" with
  | some m => some m
  | none =>
    match checkField data "greeting" with
    | some m => some m
    | none =>
      match checkField data "body" with
      | some m => some m
      | none =>
        match checkField data "closing" with
        | some m => some m
        | none =>
          if (dictGetStr data "subject").length > 200 then
            some "Subject too long (max 200 chars)"
          else if (dictGetStr data "body").length < 10 then
            some "Body too short (min 10 chars)"
          else
            none

/-- `app/core/schema.py`, `EmailRequest` (the pydantic field set; length
bounds live in the schema annotations, the core validator re-checks the
description itself). -/
structure EmailRequest where
  description : String
  user_name : String
  user_email : Option String := none
  tone : Option String := some "professional"
  sender_type : String := "professional"
  user_company : Option String := none
  user_university : Option String := none
deriving DecidableEq, Repr

/-- `app/core/schema.py`, `EmailResponse`. -/
structure EmailResponse where
  subject : String
  greeting : String
  body : String
  closing : String
deriving DecidableEq, Repr

/-- The errors `generate_email_service` can let escape: the typed
`ServiceError` (from the validator and the JSON guard) and Python's builtin
`ValueError` (from the output validator). -/
inductive PipeError where
  | service (e : ServiceError) : PipeError
  | valueError (msg : String) : PipeError
deriving DecidableEq, Repr

/-- The `user_details` dict literal built inside `generate_email_service`
(note: it carries no `title` key). -/
def userDetailsOf (req : EmailRequest) : UserDetails :=
  { name := some req.user_name
    email := req.user_email
    role := some req.sender_type
    company := req.user_company
    university := req.user_university
    title := none }

/-- `EmailResponse(**parsed)` after a passed validation: the four string
fields read out of the parsed object. -/
def mkEmailResponse (kvs : List (String × Json)) : EmailResponse :=
  { subject := dictGetStr kvs "subject"
    greeting := dictGetStr kvs "greeting"
    body := dictGetStr kvs "body"
    closing := dictGetStr kvs "closing" }

/-- `app/core/service.py`, `generate_email_service`: the synchronous
pipeline. The ML classifier and the LLM backend are oracles: `classify` is
what `predict_intent` does on a given text, `llm` what `call_llm` replies to
a given prompt (its transport errors are outside the staged pipeline
stages). -/
def generate_email_service (classify : String → ClassifierOutcome)
    (llm : String → String) (req : EmailRequest) :
    Except PipeError EmailResponse :=
  match validate_description req.description with
  | .error e => .error (.service e)
  | .ok _ =>
    let controls := infer_controls classify req.description
    let prompt := build_prompt controls req.description (userDetailsOf req)
    let raw := llm prompt
    match safe_parse_json raw with
    | .error e => .error (.service e)
    | .ok parsed =>
      match validate_email_output parsed with
      | some msg => .error (.valueError msg)
      | none => .ok (mkEmailResponse parsed)

/-- `pat` is a prefix of `l` (character lists). -/
def leadsWith : List Char → List Char → Bool
  | [], _ => true
  | _ :: _, [] => false
  | p :: ps, c :: cs => p == c && leadsWith ps cs

/-- `pat` occurs contiguously somewhere in `l`: plain-text substring search,
used to state what instruction text a prompt does or does not contain. -/
def containsSub (pat : List Char) : List Char → Bool
  | [] => pat.isEmpty
  | c :: cs => leadsWith pat (c :: cs) || containsSub pat cs

/-- Whether `PLACEHOLDER_PATTERN = \x5c[.*?\x5c]` of
`app/core/output_validator.py` finds a match: some `'['` is followed,
anywhere later, by a `']'`. -/
def hasBracketPlaceholder (s : String) : Bool :=
  match s.data.dropWhile (fun c => c != '[') with
  | [] => false
  | _ :: rest => rest.contains ']'

/-- The spec's "brace-delimited region": a `'{'` with some `'}'` after it,
which is exactly when the DOTALL pattern `\x7b.*\x7d` has a match. -/
def HasBraceRegion (l : List Char) : Prop :=
  ∃ a b c, l = a ++ '{' :: b ++ '}' :: c

/-! Concrete fixtures used by counterexamples and witnesses. -/

/-- A description whose trimmed length (20) is inside [10, 500] while its raw
length (501) exceeds 500. -/
def overlongPadded : String :=
  String.mk (List.replicate 20 'a' ++ List.replicate 481 ' ')

/-- A parsed reply whose body carries the bracketed placeholder `[Name]` but
which satisfies every other output check. -/
def placeholderReply : List (String × Json) :=
  [("subject", .str "Meeting"), ("greeting", .str "Dear Team,"),
   ("body", .str "Hello [Name], the meeting is tomorrow."),
   ("closing", .str "Best regards")]

/-- A parsed reply whose subject is 150 characters long (over the prompt's
stated 100, under the validator's 200) and which passes validation. -/
def longSubjectReply : List (String × Json) :=
  [("subject", .str (String.mk (List.replicate 150 's'))),
   ("greeting", .str "Dear Team,"),
   ("body", .str "The quarterly report is attached for review."),
   ("closing", .str "Best regards")]

/-- A well-formed request fixture (description of 27 characters). -/
def fixtureRequest : EmailRequest :=
  { description := "Please pay the invoice soon"
    user_name := "Ana"
    user_email := none
    tone := some "professional"
    sender_type := "student"
    user_company := none
    user_university := some "MIT" }

/-- A mocked backend reply whose body ("short") is below the 10-character
minimum: extraction succeeds, output validation raises `ValueError`. -/
def shortBodyReply : String :=
  "\x7b\"subject\":\"Hi\",\"greeting\":\"Dear X,\",\"body\":\"short\",\"closing\":\"Best regards\"\x7d"

/-- Signature details fixture: Ana, a student at MIT. -/
def anaDetails : UserDetails :=
  { name := some "Ana", role := some "student", university := some "MIT",
    company := none, title := none, email := none }

end EmailGen

namespace EmailGen

set_option maxRecDepth 8000

/-- C2: the Input Validator on the code as written. The failure direction of
the claim holds; the success direction is corrected: success needs the RAW
length within 500 as well, not only the trimmed length in [10, 500]. -/
theorem C2_validate_description_spec (desc : String) :
    (validate_description desc = .ok () ↔
      10 ≤ (pyStrip desc.data).length ∧ desc.data.length ≤ 500) ∧
    ((∃ e, validate_description desc = .error e ∧ e.code = "INVALID_INPUT") ↔
      ((pyStrip desc.data).length < 10 ∨ 500 < desc.data.length)) := by
  have hempty : desc.data = [] → (pyStrip desc.data).length < 10 := by
    intro h; rw [h]; decide
  unfold validate_description
  split_ifs with h1 h2
  · have hlt : (pyStrip desc.data).length < 10 := h1.elim hempty id
    constructor
    · constructor
      · intro h; simp at h
      · intro h; omega
    · constructor
      · intro _; exact Or.inl hlt
      · intro _; exact ⟨_, rfl, rfl⟩
  · constructor
    · constructor
      · intro h; simp at h
      · intro h; omega
    · constructor
      · intro _; exact Or.inr (by omega)
      · intro _; exact ⟨_, rfl, rfl⟩
  · push_neg at h1
    constructor
    · constructor
      · intro _; exact ⟨by omega, by omega⟩
      · intro _; rfl
    · constructor
      · rintro ⟨e, he, -⟩; simp at he
      · intro hor; exact absurd hor (by omega)

/-- C2 counterexample: a description of 20 letters padded with 481 trailing
spaces has trimmed length 20 ∈ [10, 500], yet the validator rejects it
(raw length 501 > 500), so "trimmed length in [10,500] implies success" is
false as stated. -/
theorem C2_trimmed_in_range_still_fails :
    10 ≤ (pyStrip overlongPadded.data).length ∧
    (pyStrip overlongPadded.data).length ≤ 500 ∧
    validate_description overlongPadded =
      .error ⟨"INVALID_INPUT", "Description too long"⟩ ∧
    validate_description overlongPadded ≠ .ok () := by
  refine ⟨?_, ?_, ?_, ?_⟩
  · have h : (pyStrip overlongPadded.data).length = 20 := by decide
    omega
  · have h : (pyStrip overlongPadded.data).length = 20 := by decide
    omega
  · rfl
  · intro h
    have h2 : validate_description overlongPadded =
        Except.error (⟨"INVALID_INPUT", "Description too long"⟩ : ServiceError) := rfl
    rw [h2] at h
    simp at h

/-- C4: the Control Inferencer is total (a function into `Controls`), always
yields tone "professional" and length "medium", maps the intent through the
fixed lookup table when confidence is at or above the 0.6 threshold, and
falls back to the neutral default below threshold or on classifier failure. -/
theorem C4_infer_controls_total (classify : String → ClassifierOutcome)
    (description : String) :
    (infer_controls classify description).tone = "professional" ∧
    (infer_controls classify description).length = "medium" ∧
    intentRecipient "HR_EMAIL" = "HR" ∧
    intentRecipient "MANAGER_EMAIL" = "Manager" ∧
    intentRecipient "CLIENT_EMAIL" = "Client" ∧
    intentRecipient "COLLEGE_EMAIL" = "College" ∧
    (∀ i, i ≠ "HR_EMAIL" → i ≠ "MANAGER_EMAIL" → i ≠ "CLIENT_EMAIL" →
      i ≠ "COLLEGE_EMAIL" → intentRecipient i = "Recipient") ∧
    (∀ intent conf, classify description = .ok intent conf →
      INTENT_CONFIDENCE_THRESHOLD ≤ conf →
      infer_controls classify description =
        { defaultControls with recipient := intentRecipient intent }) ∧
    (∀ intent conf, classify description = .ok intent conf →
      conf < INTENT_CONFIDENCE_THRESHOLD →
      infer_controls classify description = defaultControls) ∧
    (classify description = .failed →
      infer_controls classify description = defaultControls) := by
  refine ⟨?_, ?_, rfl, rfl, rfl, rfl, ?_, ?_, ?_, ?_⟩
  · cases hc : classify description with
    | ok i c =>
      simp only [infer_controls, hc]
      split_ifs <;> rfl
    | failed => simp only [infer_controls, hc]; rfl
  · cases hc : classify description with
    | ok i c =>
      simp only [infer_controls, hc]
      split_ifs <;> rfl
    | failed => simp only [infer_controls, hc]; rfl
  · intro i h1 h2 h3 h4
    unfold intentRecipient
    rw [if_neg h1, if_neg h2, if_neg h3, if_neg h4]
  · intro intent conf hc hge
    simp only [infer_controls, hc]
    rw [if_pos hge]
  · intro intent conf hc hlt
    simp only [infer_controls, hc]
    rw [if_neg (not_le.mpr hlt)]
  · intro hc
    simp only [infer_controls, hc]

/-- C5: signature block construction. The block always starts with the name;
a student with a university gets "Student, {university}" on the next line, a
professional with a company "{title or Employee}, {company}", a business
owner with a company "Owner, {company}"; a truthy email address is appended
on its own line; absent fields are omitted (no placeholder); and on the
claim's concrete instance the block is exactly "Ana\nStudent, MIT" with no
bracketed placeholder. -/
theorem C5_signature_block :
    (∀ n u : String, ∀ oc ot : Option String, u ≠ "" →
      sigBlock { name := some n, role := some "student", university := some u,
                 company := oc, title := ot, email := none }
        = n ++ "\nStudent, " ++ u) ∧
    (∀ n c t : String, c ≠ "" → t ≠ "" →
      sigBlock { name := some n, role := some "professional", university := none,
                 company := some c, title := some t, email := none }
        = n ++ "\n" ++ t ++ ", " ++ c) ∧
    (∀ n c : String, c ≠ "" →
      sigBlock { name := some n, role := some "professional", university := none,
                 company := some c, title := none, email := none }
        = n ++ "\n" ++ "Employee" ++ ", " ++ c) ∧
    (∀ n c : String, c ≠ "" →
      sigBlock { name := some n, role := some "business", university := none,
                 company := some c, title := none, email := none }
        = n ++ "\nOwner, " ++ c) ∧
    (∀ n u em : String, u ≠ "" → em ≠ "" →
      sigBlock { name := some n, role := some "student", university := some u,
                 company := none, title := none, email := some em }
        = n ++ "\nStudent, " ++ u ++ "\n" ++ em) ∧
    (∀ n r : String,
      sigBlock { name := some n, role := some r, university := none,
                 company := none, title := none, email := none } = n) ∧
    sigBlock anaDetails = "Ana\nStudent, MIT" ∧
    hasBracketPlaceholder (sigBlock anaDetails) = false := by
  refine ⟨?_, ?_, ?_, ?_, ?_, ?_, by decide, by decide⟩
  · intro n u oc ot hu
    simp [sigBlock, truthy, hu]
  · intro n c t hc ht
    simp [sigBlock, truthy, hc, ht]
  · intro n c hc
    simp [sigBlock, truthy, hc]
  · intro n c hc
    simp [sigBlock, truthy, hc]
  · intro n u em hu hem
    simp [sigBlock, truthy, hu, hem]
  · intro n r
    simp [sigBlock, truthy]

/-- A per-field check passes exactly when the field is present, is a string,
and is non-empty after trimming. -/
theorem checkField_none_iff (kvs : List (String × Json)) (f : String) :
    checkField kvs f = none ↔
      ∃ s, dictGet kvs f = some (.str s) ∧ pyStrip s.data ≠ [] := by
  unfold checkField
  cases h : dictGet kvs f with
  | none => simp
  | some v =>
    cases v with
    | str s =>
      dsimp only
      split_ifs with hs
      · simp [hs]
      · simp [hs]
    | null => simp
    | bool b => simp
    | num n => simp
    | arr es => simp
    | obj fs => simp

/-- `validate_email_output` passes exactly when all four field checks pass
and both length checks pass. -/
theorem validate_none_iff (data : List (String × Json)) :
    validate_email_output data = none ↔
      checkField data "subject" = none ∧ checkField data "greeting" = none ∧
      checkField data "body" = none ∧ checkField data "closing" = none ∧
      (dictGetStr data "subject").length ≤ 200 ∧
      10 ≤ (dictGetStr data "body").length := by
  unfold validate_email_output
  cases h1 : checkField data "subject" with
  | some m => simp [h1]
  | none =>
    cases h2 : checkField data "greeting" with
    | some m => simp [h2]
    | none =>
      cases h3 : checkField data "body" with
      | some m => simp [h3]
      | none =>
        cases h4 : checkField data "closing" with
        | some m => simp [h4]
        | none =>
          split_ifs with hs hb
          · simp only [h1, h2, h3, h4, true_and]
            constructor
            · intro h; simp at h
            · intro h; omega
          · simp only [h1, h2, h3, h4, true_and]
            constructor
            · intro h; simp at h
            · intro h; omega
          · simp only [h1, h2, h3, h4, true_and]
            constructor
            · intro _; exact ⟨by omega, by omega⟩
            · intro _; trivial

/-- Every object the Output Validator accepts has a subject of at most 200
characters (the enforced limit). -/
theorem validate_none_subject_le (data : List (String × Json))
    (h : validate_email_output data = none) :
    (dictGetStr data "subject").length ≤ 200 :=
  ((validate_none_iff data).mp h).2.2.2.2.1

/-- C7 (amended): every object the Output Validator accepts has all four
fields present as strings that are non-empty after trimming, a subject
within the 200-character maximum and a body at or above the 10-character
minimum. The claim's remaining conjunct — no bracketed placeholder in any
field — does not hold: placeholders are logged and passed through. -/
theorem C7_accepted_invariant (data : List (String × Json))
    (h : validate_email_output data = none) :
    (∀ f ∈ (["subject", "greeting", "body", "closing"] : List String),
      ∃ s, dictGet data f = some (.str s) ∧ pyStrip s.data ≠ []) ∧
    (dictGetStr data "subject").length ≤ 200 ∧
    10 ≤ (dictGetStr data "body").length := by
  obtain ⟨h1, h2, h3, h4, h5, h6⟩ := (validate_none_iff data).mp h
  refine ⟨?_, h5, h6⟩
  intro f hf
  simp only [List.mem_cons, List.not_mem_nil, or_false] at hf
  rcases hf with rfl | rfl | rfl | rfl
  · exact (checkField_none_iff data _).mp h1
  · exact (checkField_none_iff data _).mp h2
  · exact (checkField_none_iff data _).mp h3
  · exact (checkField_none_iff data _).mp h4

/-- C7 witness: the invariant instantiated at a concrete accepted reply. -/
theorem C7_accepted_invariant_witness :
    (∀ f ∈ (["subject", "greeting", "body", "closing"] : List String),
      ∃ s, dictGet longSubjectReply f = some (.str s) ∧ pyStrip s.data ≠ []) ∧
    (dictGetStr longSubjectReply "subject").length ≤ 200 ∧
    10 ≤ (dictGetStr longSubjectReply "body").length :=
  C7_accepted_invariant longSubjectReply rfl

/-- C7 counterexample: an object whose body carries the bracketed
placeholder "[Name]" is accepted by the Output Validator, so "no leftover
bracketed placeholder token in any field" is false of accepted objects. -/
theorem C7_placeholder_passes :
    validate_email_output placeholderReply = none ∧
    hasBracketPlaceholder (dictGetStr placeholderReply "body") = true :=
  ⟨rfl, rfl⟩

/-- A prefix match survives extending the list on the right. -/
theorem leadsWith_append (p l m : List Char) (h : leadsWith p l = true) :
    leadsWith p (l ++ m) = true := by
  induction p generalizing l with
  | nil => rfl
  | cons x xs ih =>
    cases l with
    | nil => exact absurd h (by simp [leadsWith])
    | cons c cs =>
      simp only [List.cons_append, leadsWith, Bool.and_eq_true] at h ⊢
      exact ⟨h.1, ih cs h.2⟩

/-- The empty pattern occurs in every list. -/
theorem containsSub_nil (b : List Char) : containsSub [] b = true := by
  cases b <;> simp [containsSub, leadsWith, List.isEmpty]

/-- A substring occurrence survives prepending text. -/
theorem containsSub_append_left (p a b : List Char) (h : containsSub p b = true) :
    containsSub p (a ++ b) = true := by
  induction a with
  | nil => exact h
  | cons c cs ih =>
    simp only [List.cons_append, containsSub, Bool.or_eq_true]
    exact Or.inr ih

/-- A substring occurrence survives appending text. -/
theorem containsSub_append_right (p a b : List Char) (h : containsSub p a = true) :
    containsSub p (a ++ b) = true := by
  induction a with
  | nil =>
    simp only [containsSub] at h
    have hp : p = [] := by
      cases p with
      | nil => rfl
      | cons x xs => simp [List.isEmpty] at h
    subst hp
    exact containsSub_nil b
  | cons c cs ih =>
    simp only [containsSub, Bool.or_eq_true] at h
    simp only [List.cons_append, containsSub, Bool.or_eq_true]
    rcases h with h | h
    · exact Or.inl (leadsWith_append p (c :: cs) b h)
    · exact Or.inr (ih h)

/-- C6 (amended): every built prompt states the subject limit as
"Max 100 chars", while the Output Validator enforces a 200-character limit;
both values are in the 100–200 range but they are not one consistent value —
the validator accepts a 150-character subject that exceeds the prompt's
stated limit. -/
theorem C6_subject_limits_differ :
    (∀ (c : Controls) (d : String) (u : UserDetails),
      containsSub "Max 100 chars".data (build_prompt c d u).data = true) ∧
    (∀ data, validate_email_output data = none →
      (dictGetStr data "subject").length ≤ 200) ∧
    validate_email_output longSubjectReply = none ∧
    (dictGetStr longSubjectReply "subject").length = 150 := by
  refine ⟨?_, validate_none_subject_le, rfl, rfl⟩
  intro c d u
  have hbase : containsSub "Max 100 chars".data promptRules.data = true := by decide
  unfold build_prompt
  simp only [String.data_append]
  apply containsSub_append_right
  apply containsSub_append_right
  apply containsSub_append_right
  apply containsSub_append_right
  exact containsSub_append_left _ _ _ hbase

/-- C6 counterexample: at a concrete request the prompt contains
"Max 100 chars" (and nowhere "Max 200 chars"), yet the validator accepts a
subject of 150 > 100 characters: the stated limit and the enforced limit are
not a single value. -/
theorem C6_stated_vs_enforced_cex :
    containsSub "Max 100 chars".data
      (build_prompt defaultControls fixtureRequest.description anaDetails).data = true ∧
    containsSub "Max 200 chars".data
      (build_prompt defaultControls fixtureRequest.description anaDetails).data = false ∧
    validate_email_output longSubjectReply = none ∧
    100 < (dictGetStr longSubjectReply "subject").length :=
  ⟨by decide, by decide, rfl, by decide⟩

/-- C9 (amended): the Prompt Builder emits no low-confidence neutrality
instruction at all — a below-threshold classification produces controls (and
hence a prompt) identical to the classifier-failure default, and the
resulting prompt contains none of the words "neutral", "authority" or
"deadline". -/
theorem C9_no_neutrality_instruction :
    (∀ (d : String) (u : UserDetails) (intent : String) (conf : ℚ),
      conf < INTENT_CONFIDENCE_THRESHOLD →
      build_prompt (infer_controls (fun _ => .ok intent conf) d) d u
        = build_prompt defaultControls d u) ∧
    (∀ (d : String) (u : UserDetails),
      build_prompt (infer_controls (fun _ => .failed) d) d u
        = build_prompt defaultControls d u) ∧
    containsSub "neutral".data
      (build_prompt defaultControls fixtureRequest.description anaDetails).data = false ∧
    containsSub "authority".data
      (build_prompt defaultControls fixtureRequest.description anaDetails).data = false ∧
    containsSub "deadline".data
      (build_prompt defaultControls fixtureRequest.description anaDetails).data = false := by
  refine ⟨?_, fun d u => rfl, by decide, by decide, by decide⟩
  intro d u intent conf hlt
  have h : infer_controls (fun _ => .ok intent conf) d = defaultControls := by
    simp only [infer_controls]
    rw [if_neg (not_le.mpr hlt)]
  rw [h]

/-- C9 witness: the low-confidence prompt identity at a concrete input. -/
theorem C9_no_neutrality_instruction_witness :
    build_prompt (infer_controls (fun _ => .ok "HR_EMAIL" (1 / 10))
        fixtureRequest.description) fixtureRequest.description anaDetails
      = build_prompt defaultControls fixtureRequest.description anaDetails :=
  C9_no_neutrality_instruction.1 fixtureRequest.description anaDetails "HR_EMAIL" (1 / 10)
    (by norm_num [INTENT_CONFIDENCE_THRESHOLD])

/-- C9 counterexample: at a concrete low-confidence inference (confidence
1/10 < 0.6, so controls fall back to the neutral default) the built prompt
does not contain the instruction "stay neutral" the claim requires. -/
theorem C9_low_confidence_prompt_lacks_instruction :
    infer_controls (fun _ => .ok "HR_EMAIL" (1 / 10)) fixtureRequest.description
      = defaultControls ∧
    containsSub "stay neutral".data
      (build_prompt defaultControls fixtureRequest.description anaDetails).data
      = false := by
  constructor
  · simp only [infer_controls]
    rw [if_neg]
    norm_num [INTENT_CONFIDENCE_THRESHOLD]
  · decide

/-- C10: the request's optional tone field is never read by the pipeline —
two requests identical except for tone yield identical inferred controls,
character-for-character identical prompts, and identical pipeline results
under the same classifier and backend oracles. -/
theorem C10_tone_noninterference (classify : String → ClassifierOutcome)
    (llm : String → String) (req1 req2 : EmailRequest)
    (hd : req1.description = req2.description)
    (hn : req1.user_name = req2.user_name)
    (he : req1.user_email = req2.user_email)
    (hs : req1.sender_type = req2.sender_type)
    (hc : req1.user_company = req2.user_company)
    (hu : req1.user_university = req2.user_university) :
    infer_controls classify req1.description
      = infer_controls classify req2.description ∧
    build_prompt (infer_controls classify req1.description) req1.description
        (userDetailsOf req1)
      = build_prompt (infer_controls classify req2.description) req2.description
        (userDetailsOf req2) ∧
    generate_email_service classify llm req1
      = generate_email_service classify llm req2 := by
  obtain ⟨d1, n1, e1, t1, s1, c1, u1⟩ := req1
  obtain ⟨d2, n2, e2, t2, s2, c2, u2⟩ := req2
  dsimp only at hd hn he hs hc hu
  subst hd hn he hs hc hu
  exact ⟨rfl, rfl, rfl⟩

/-- C10 witness: two concrete requests differing only in tone produce the
same pipeline result. -/
theorem C10_tone_noninterference_witness :
    generate_email_service (fun _ => ClassifierOutcome.failed)
        (fun _ => shortBodyReply) fixtureRequest
      = generate_email_service (fun _ => ClassifierOutcome.failed)
        (fun _ => shortBodyReply) { fixtureRequest with tone := some "casual" } :=
  (C10_tone_noninterference (fun _ => ClassifierOutcome.failed)
    (fun _ => shortBodyReply) fixtureRequest
    { fixtureRequest with tone := some "casual" }
    rfl rfl rfl rfl rfl rfl).2.2

/-- Every error `validate_description` raises carries code INVALID_INPUT. -/
theorem validate_description_error_code (d : String) (e : ServiceError)
    (h : validate_description d = .error e) : e.code = "INVALID_INPUT" := by
  unfold validate_description at h
  split_ifs at h
  · injection h with h'
    rw [← h']
  · injection h with h'
    rw [← h']

/-- Every error `safe_parse_json` raises carries one of the three extraction
codes. -/
theorem safe_parse_json_error_code (t : String) (e : ServiceError)
    (h : safe_parse_json t = .error e) :
    e.code = "LLM_EMPTY_RESPONSE" ∨ e.code = "LLM_INVALID_OUTPUT" ∨
    e.code = "LLM_INVALID_JSON" := by
  unfold safe_parse_json at h
  split_ifs at h
  · injection h with h'
    exact Or.inl (by rw [← h'])
  · cases hs : jsonBlockSearch t.data with
    | none =>
      simp only [hs] at h
      injection h with h'
      exact Or.inr (Or.inl (by rw [← h']))
    | some region =>
      simp only [hs] at h
      cases hp : parseJson region with
      | none =>
        simp only [hp] at h
        injection h with h'
        exact Or.inr (Or.inr (by rw [← h']))
      | some v =>
        simp only [hp] at h
        cases v with
        | obj kvs => simp at h
        | null =>
          injection h with h'
          exact Or.inr (Or.inr (by rw [← h']))
        | bool b =>
          injection h with h'
          exact Or.inr (Or.inr (by rw [← h']))
        | num n =>
          injection h with h'
          exact Or.inr (Or.inr (by rw [← h']))
        | str s =>
          injection h with h'
          exact Or.inr (Or.inr (by rw [← h']))
        | arr es =>
          injection h with h'
          exact Or.inr (Or.inr (by rw [← h']))

/-- C8 (amended): every failure of the pipeline's validation, inference,
prompt-building and extraction stages is a `ServiceError` with one of the
four stage codes — but an output-validation failure is raised as Python's
builtin `ValueError` (exactly the message `validate_email_output` produces),
not as `ServiceError`. -/
theorem C8_error_channels (classify : String → ClassifierOutcome)
    (llm : String → String) (req : EmailRequest) :
    match generate_email_service classify llm req with
    | .error (.service e) =>
        e.code = "INVALID_INPUT" ∨ e.code = "LLM_EMPTY_RESPONSE" ∨
        e.code = "LLM_INVALID_OUTPUT" ∨ e.code = "LLM_INVALID_JSON"
    | .error (.valueError m) =>
        ∃ kvs,
          safe_parse_json (llm (build_prompt (infer_controls classify req.description)
            req.description (userDetailsOf req))) = .ok kvs ∧
          validate_email_output kvs = some m
    | .ok _ => True := by
  unfold generate_email_service
  cases hv : validate_description req.description with
  | error e =>
    exact Or.inl (validate_description_error_code _ _ hv)
  | ok u =>
    dsimp only
    cases hp : safe_parse_json (llm (build_prompt (infer_controls classify
        req.description) req.description (userDetailsOf req))) with
    | error e =>
      rcases safe_parse_json_error_code _ _ hp with h | h | h
      · exact Or.inr (Or.inl h)
      · exact Or.inr (Or.inr (Or.inl h))
      · exact Or.inr (Or.inr (Or.inr h))
    | ok parsed =>
      dsimp only
      cases hvo : validate_email_output parsed with
      | some m => exact ⟨parsed, rfl, hvo⟩
      | none => trivial

/-- C8 counterexample: a run in which every `ServiceError`-guarded stage
succeeds but output validation fails raises `ValueError` ("Body too short"),
an error that is not of the single typed `ServiceError` channel. -/
theorem C8_output_validation_raises_builtin :
    generate_email_service (fun _ => ClassifierOutcome.failed)
        (fun _ => shortBodyReply) fixtureRequest
      = .error (.valueError "Body too short (min 10 chars)") ∧
    (∀ e : ServiceError,
      PipeError.valueError "Body too short (min 10 chars)" ≠ PipeError.service e) := by
  constructor
  · rfl
  · intro e h
    exact PipeError.noConfusion h

/-- The one-step equation of `jsonBlockSearch` on a cons cell. -/
theorem jsonBlockSearch_cons (c : Char) (cs : List Char) :
    jsonBlockSearch (c :: cs) =
      if c = '{' ∧ '}' ∈ cs then some (c :: takeToLastRBrace cs)
      else jsonBlockSearch cs := rfl

/-- The greedy tail of the regex match stops at the last `'}'`: appending
text with no `'}'` after a list ending in `'}'` leaves the match unchanged. -/
theorem takeToLastRBrace_append (j s : List Char) (hs : '}' ∉ s)
    (hj : j.getLast? = some '}') : takeToLastRBrace (j ++ s) = j := by
  unfold takeToLastRBrace
  rw [List.reverse_append]
  have hpos : ∀ a ∈ s.reverse, (a != '}') = true := by
    intro a ha
    rw [List.mem_reverse] at ha
    exact bne_iff_ne.mpr (fun hh => hs (hh ▸ ha))
  rw [List.dropWhile_append_of_pos hpos]
  have hrev : j.reverse.head? = some '}' := by
    rw [List.head?_reverse]; exact hj
  cases hr : j.reverse with
  | nil => rw [hr] at hrev; exact absurd hrev (by simp)
  | cons x t =>
    rw [hr] at hrev
    injection hrev with hx
    subst hx
    rw [List.dropWhile_cons]
    simp only [bne_self_eq_false, Bool.false_eq_true, if_false]
    rw [← hr, List.reverse_reverse]

/-- The regex search on prefix ++ region ++ suffix returns exactly the
region, provided the prefix has no `'{'`, the suffix no `'}'`, and the
region starts with `'{'` and ends with `'}'`. -/
theorem jsonBlockSearch_embed (p j s : List Char) (hp : '{' ∉ p)
    (hj1 : j.head? = some '{') (hj2 : j.getLast? = some '}') (hs : '}' ∉ s) :
    jsonBlockSearch (p ++ (j ++ s)) = some j := by
  induction p with
  | nil =>
    rw [List.nil_append]
    cases j with
    | nil => exact absurd hj1 (by simp)
    | cons c jt =>
      injection hj1 with hc
      subst hc
      cases jt with
      | nil => simp at hj2
      | cons y ys =>
        have hjt : (y :: ys).getLast? = some '}' := by
          rw [← hj2]
          exact List.getLast?_cons_cons.symm
        have hmem : '}' ∈ y :: ys := List.mem_of_mem_getLast? hjt
        rw [List.cons_append, jsonBlockSearch_cons]
        rw [if_pos ⟨rfl, List.mem_append.mpr (Or.inl hmem)⟩]
        rw [takeToLastRBrace_append (y :: ys) s hs hjt]
  | cons c pt ih =>
    have hc : c ≠ '{' := fun h => hp (by rw [← h]; exact List.mem_cons_self c pt)
    have hp' : '{' ∉ pt := fun h => hp (List.mem_cons_of_mem c h)
    rw [List.cons_append, jsonBlockSearch_cons]
    rw [if_neg (fun hand => hc hand.1)]
    exact ih hp'

/-- C1 (amended): extraction recovers an embedded JSON object's key-value
pairs whenever the surrounding commentary cannot confuse the greedy match:
the prefix contains no `'{'` and the suffix no `'}'`. (As stated for fully
arbitrary prefix/suffix text the claim is false: a `'}'` in the suffix is
swallowed by the greedy match — see the counterexample.) -/
theorem C1_extraction_roundtrip (p j s : List Char) (kvs : List (String × Json))
    (hp : '{' ∉ p) (hs : '}' ∉ s)
    (hj1 : j.head? = some '{') (hj2 : j.getLast? = some '}')
    (hparse : parseJson j = some (.obj kvs)) :
    safe_parse_json (String.mk (p ++ j ++ s)) = .ok kvs := by
  have hinj : '{' ∈ j := by
    cases j with
    | nil => simp at hj1
    | cons c t =>
      injection hj1 with hc
      subst hc
      exact List.mem_cons_self _ _
  have hmem : '{' ∈ p ++ j ++ s :=
    List.mem_append.mpr (Or.inl (List.mem_append.mpr (Or.inr hinj)))
  have hcond : ¬((String.mk (p ++ j ++ s)).data.all isPyWs = true) := by
    intro h
    have hw := List.all_eq_true.mp h '{' hmem
    exact absurd hw (by decide)
  have hsearch : jsonBlockSearch (String.mk (p ++ j ++ s)).data = some j := by
    show jsonBlockSearch (p ++ j ++ s) = some j
    rw [List.append_assoc]
    exact jsonBlockSearch_embed p j s hp hj1 hj2 hs
  unfold safe_parse_json
  rw [if_neg hcond]
  simp only [hsearch, hparse]

/-- C1 witness: the amended round-trip at a concrete reply with commentary
on both sides. -/
theorem C1_extraction_roundtrip_witness :
    safe_parse_json
        (String.mk ("Sure! ".data ++ "\x7b\"a\": 1\x7d".data ++ " done.".data))
      = .ok [("a", Json.num 1)] :=
  C1_extraction_roundtrip "Sure! ".data "\x7b\"a\": 1\x7d".data " done.".data
    [("a", Json.num 1)] (by decide) (by decide) (by decide) (by decide) rfl

/-- C1 counterexample: the object `..."a": 1...` is valid JSON and is
embedded in prefix "Sure! " and suffix " tail..." — but the suffix contains
a `'}'`, the greedy match swallows it, and extraction fails with
LLM_INVALID_JSON instead of recovering the object's pairs. -/
theorem C1_greedy_match_not_roundtrip :
    parseJson "\x7b\"a\": 1\x7d".data = some (.obj [("a", Json.num 1)]) ∧
    jsonBlockSearch "Sure! \x7b\"a\": 1\x7d tail\x7d".data
      = some "\x7b\"a\": 1\x7d tail\x7d".data ∧
    safe_parse_json "Sure! \x7b\"a\": 1\x7d tail\x7d"
      = .error ⟨"LLM_INVALID_JSON", "Invalid JSON returned by LLM"⟩ :=
  ⟨rfl, rfl, rfl⟩

/-- The regex search fails exactly when the text has no brace-delimited
region (no `'{'` followed later by a `'}'`). -/
theorem jsonBlockSearch_none_iff (l : List Char) :
    jsonBlockSearch l = none ↔ ¬ HasBraceRegion l := by
  induction l with
  | nil =>
    constructor
    · rintro - ⟨a, b, c, habc⟩
      simp at habc
    · intro _; rfl
  | cons x xs ih =>
    by_cases hx : x = '{' ∧ '}' ∈ xs
    · constructor
      · intro h
        rw [jsonBlockSearch_cons, if_pos hx] at h
        exact absurd h (by simp)
      · intro h
        exfalso
        apply h
        obtain ⟨h1, h2⟩ := hx
        obtain ⟨b, c, hbc⟩ := List.append_of_mem h2
        subst h1
        exact ⟨[], b, c, by rw [hbc]; simp⟩
    · have hstep : jsonBlockSearch (x :: xs) = jsonBlockSearch xs := by
        rw [jsonBlockSearch_cons, if_neg hx]
      rw [hstep, ih]
      have hiff : HasBraceRegion (x :: xs) ↔ HasBraceRegion xs := by
        constructor
        · rintro ⟨a, b, c, habc⟩
          cases a with
          | nil =>
            rw [List.nil_append, List.cons_append] at habc
            injection habc with h1 h2
            exact absurd ⟨h1, by rw [h2]; exact
              List.mem_append.mpr (Or.inr (List.mem_cons_self _ _))⟩ hx
          | cons y a' =>
            rw [List.cons_append, List.cons_append] at habc
            injection habc with h1 h2
            exact ⟨a', b, c, h2⟩
        · rintro ⟨a, b, c, habc⟩
          exact ⟨x :: a, b, c, by rw [habc]; simp [List.cons_append]⟩
      exact (not_congr hiff).symm

/-- The four taxonomy conjuncts, in the case where the matched region does
not parse to an object and `safe_parse_json` returns an LLM_INVALID_JSON
error. -/
theorem nonObjTaxonomy (text : String) (region : List Char)
    (hne : ¬ ∀ c ∈ text.data, isPyWs c = true)
    (hsearch : jsonBlockSearch text.data = some region)
    (hnotobj : ∀ kvs, parseJson region ≠ some (Json.obj kvs))
    (e0 : ServiceError) (he0 : e0.code = "LLM_INVALID_JSON")
    (hval : safe_parse_json text = .error e0) :
    (safe_parse_json text
        = .error ⟨"LLM_EMPTY_RESPONSE", "LLM returned empty response"⟩
      ↔ ∀ c ∈ text.data, isPyWs c = true) ∧
    ((∃ e, safe_parse_json text = .error e ∧ e.code = "LLM_INVALID_OUTPUT")
      ↔ (¬ ∀ c ∈ text.data, isPyWs c = true) ∧ ¬ HasBraceRegion text.data) ∧
    ((∃ e, safe_parse_json text = .error e ∧ e.code = "LLM_INVALID_JSON")
      ↔ (¬ ∀ c ∈ text.data, isPyWs c = true) ∧
        (∃ r, jsonBlockSearch text.data = some r ∧
          ∀ kvs, parseJson r ≠ some (Json.obj kvs))) ∧
    (∀ kvs, safe_parse_json text = .ok kvs
      ↔ (¬ ∀ c ∈ text.data, isPyWs c = true) ∧
        (∃ r, jsonBlockSearch text.data = some r ∧
          parseJson r = some (Json.obj kvs))) := by
  refine ⟨?_, ?_, ?_, ?_⟩
  · apply iff_of_false
    · intro h
      rw [hval] at h
      injection h with h'
      rw [h'] at he0
      exact absurd he0 (by decide)
    · exact hne
  · apply iff_of_false
    · rintro ⟨e, he, hc⟩
      rw [hval] at he
      injection he with h'
      subst h'
      rw [hc] at he0
      exact absurd he0 (by decide)
    · rintro ⟨-, hnr⟩
      have h0 := (jsonBlockSearch_none_iff text.data).mpr hnr
      rw [hsearch] at h0
      exact Option.noConfusion h0
  · apply iff_of_true
    · exact ⟨e0, hval, he0⟩
    · exact ⟨hne, region, hsearch, hnotobj⟩
  · intro kvs
    apply iff_of_false
    · intro h
      rw [hval] at h
      exact Except.noConfusion h
    · rintro ⟨-, region', hr, hp2⟩
      rw [hsearch] at hr
      injection hr with h'
      subst h'
      exact hnotobj kvs hp2

/-- C3: the extraction error taxonomy. `safe_parse_json` fails with
LLM_EMPTY_RESPONSE exactly on whitespace-only (or empty) replies, with
LLM_INVALID_OUTPUT exactly when a non-blank reply has no brace-delimited
region, with LLM_INVALID_JSON exactly when the matched region fails to parse
or parses to a non-object, and otherwise returns the parsed key-value
mapping. -/
theorem C3_error_taxonomy (text : String) :
    (safe_parse_json text
        = .error ⟨"LLM_EMPTY_RESPONSE", "LLM returned empty response"⟩
      ↔ ∀ c ∈ text.data, isPyWs c = true) ∧
    ((∃ e, safe_parse_json text = .error e ∧ e.code = "LLM_INVALID_OUTPUT")
      ↔ (¬ ∀ c ∈ text.data, isPyWs c = true) ∧ ¬ HasBraceRegion text.data) ∧
    ((∃ e, safe_parse_json text = .error e ∧ e.code = "LLM_INVALID_JSON")
      ↔ (¬ ∀ c ∈ text.data, isPyWs c = true) ∧
        (∃ r, jsonBlockSearch text.data = some r ∧
          ∀ kvs, parseJson r ≠ some (Json.obj kvs))) ∧
    (∀ kvs, safe_parse_json text = .ok kvs
      ↔ (¬ ∀ c ∈ text.data, isPyWs c = true) ∧
        (∃ r, jsonBlockSearch text.data = some r ∧
          parseJson r = some (Json.obj kvs))) := by
  by_cases hw : text.data.all isPyWs = true
  · have hwp : ∀ c ∈ text.data, isPyWs c = true := List.all_eq_true.mp hw
    have hval : safe_parse_json text
        = .error ⟨"LLM_EMPTY_RESPONSE", "LLM returned empty response"⟩ := by
      unfold safe_parse_json
      rw [if_pos hw]
    refine ⟨iff_of_true hval hwp, ?_, ?_, ?_⟩
    · apply iff_of_false
      · rintro ⟨e, he, hc⟩
        rw [hval] at he
        injection he with h'
        subst h'
        exact absurd hc (by decide)
      · rintro ⟨hne2, -⟩
        exact hne2 hwp
    · apply iff_of_false
      · rintro ⟨e, he, hc⟩
        rw [hval] at he
        injection he with h'
        subst h'
        exact absurd hc (by decide)
      · rintro ⟨hne2, -⟩
        exact hne2 hwp
    · intro kvs
      apply iff_of_false
      · intro h
        rw [hval] at h
        exact Except.noConfusion h
      · rintro ⟨hne2, -⟩
        exact hne2 hwp
  · have hne : ¬ ∀ c ∈ text.data, isPyWs c = true :=
      fun hp => hw (List.all_eq_true.mpr hp)
    rcases Option.eq_none_or_eq_some (jsonBlockSearch text.data) with
      hsearch | ⟨region, hsearch⟩
    · have hval : safe_parse_json text
          = .error ⟨"LLM_INVALID_OUTPUT", "No JSON object found in LLM response"⟩ := by
        unfold safe_parse_json
        rw [if_neg hw]
        simp only [hsearch]
      have hnr := (jsonBlockSearch_none_iff text.data).mp hsearch
      refine ⟨?_, ?_, ?_, ?_⟩
      · apply iff_of_false
        · intro h
          rw [hval] at h
          injection h with h'
          exact absurd h' (by decide)
        · exact hne
      · exact iff_of_true ⟨_, hval, rfl⟩ ⟨hne, hnr⟩
      · apply iff_of_false
        · rintro ⟨e, he, hc⟩
          rw [hval] at he
          injection he with h'
          subst h'
          exact absurd hc (by decide)
        · rintro ⟨-, r, hr, -⟩
          rw [hsearch] at hr
          exact Option.noConfusion hr
      · intro kvs
        apply iff_of_false
        · intro h
          rw [hval] at h
          exact Except.noConfusion h
        · rintro ⟨-, r, hr, -⟩
          rw [hsearch] at hr
          exact Option.noConfusion hr
    · rcases Option.eq_none_or_eq_some (parseJson region) with hparse | ⟨v, hparse⟩
      · exact nonObjTaxonomy text region hne hsearch
          (fun kvs h => by rw [hparse] at h; exact Option.noConfusion h)
          ⟨"LLM_INVALID_JSON", "Invalid JSON returned by LLM"⟩ rfl
          (by unfold safe_parse_json; rw [if_neg hw]; simp only [hsearch, hparse])
      · cases v with
        | obj kvs0 =>
          have hval : safe_parse_json text = .ok kvs0 := by
            unfold safe_parse_json
            rw [if_neg hw]
            simp only [hsearch, hparse]
          refine ⟨?_, ?_, ?_, ?_⟩
          · apply iff_of_false
            · intro h
              rw [hval] at h
              exact Except.noConfusion h
            · exact hne
          · apply iff_of_false
            · rintro ⟨e, he, -⟩
              rw [hval] at he
              exact Except.noConfusion he
            · rintro ⟨-, hnr⟩
              have h0 := (jsonBlockSearch_none_iff text.data).mpr hnr
              rw [hsearch] at h0
              exact Option.noConfusion h0
          · apply iff_of_false
            · rintro ⟨e, he, -⟩
              rw [hval] at he
              exact Except.noConfusion he
            · rintro ⟨-, r, hr, hforall⟩
              rw [hsearch] at hr
              injection hr with h'
              subst h'
              exact hforall kvs0 hparse
          · intro kvs
            constructor
            · intro h
              rw [hval] at h
              injection h with h'
              subst h'
              exact ⟨hne, region, hsearch, hparse⟩
            · rintro ⟨-, r, hr, hp2⟩
              rw [hsearch] at hr
              injection hr with h'
              subst h'
              rw [hparse] at hp2
              injection hp2 with h3
              injection h3 with h4
              rw [hval, h4]
        | null =>
          exact nonObjTaxonomy text region hne hsearch
            (fun kvs h => by
              rw [hparse] at h; injection h with h3; exact Json.noConfusion h3)
            ⟨"LLM_INVALID_JSON", "Parsed JSON is not an object"⟩ rfl
            (by unfold safe_parse_json; rw [if_neg hw]; simp only [hsearch, hparse])
        | bool b =>
          exact nonObjTaxonomy text region hne hsearch
            (fun kvs h => by
              rw [hparse] at h; injection h with h3; exact Json.noConfusion h3)
            ⟨"LLM_INVALID_JSON", "Parsed JSON is not an object"⟩ rfl
            (by unfold safe_parse_json; rw [if_neg hw]; simp only [hsearch, hparse])
        | num n =>
          exact nonObjTaxonomy text region hne hsearch
            (fun kvs h => by
              rw [hparse] at h; injection h with h3; exact Json.noConfusion h3)
            ⟨"LLM_INVALID_JSON", "Parsed JSON is not an object"⟩ rfl
            (by unfold safe_parse_json; rw [if_neg hw]; simp only [hsearch, hparse])
        | str s =>
          exact nonObjTaxonomy text region hne hsearch
            (fun kvs h => by
              rw [hparse] at h; injection h with h3; exact Json.noConfusion h3)
            ⟨"LLM_INVALID_JSON", "Parsed JSON is not an object"⟩ rfl
            (by unfold safe_parse_json; rw [if_neg hw]; simp only [hsearch, hparse])
        | arr es =>
          exact nonObjTaxonomy text region hne hsearch
            (fun kvs h => by
              rw [hparse] at h; injection h with h3; exact Json.noConfusion h3)
            ⟨"LLM_INVALID_JSON", "Parsed JSON is not an object"⟩ rfl
            (by unfold safe_parse_json; rw [if_neg hw]; simp only [hsearch, hparse])

end EmailGen
